import Mathlib

/-
Verification development for the CALIPSO HDF5 reader (calipso.py).

The Python source is shallowly embedded below.  Numeric array contents are
modelled as exact rationals; every value relevant to the verified claims
(sentinels -9.0 and 0.0, small integer counts, sums such as 50.0 and means
such as 10.0) is exactly representable in the floating types the code uses,
so no rounding is involved in any statement proved here.  numpy arrays are
modelled as either None, a 1-D list, or a 2-D rectangular list with an
explicit column count.
-/

set_option maxHeartbeats 1000000

namespace Calipso

variable {α β γ : Type}

/-- Model of the values stored in DataObject.all_arrays: Python None
(`null`), a 1-D numeric array, or a 2-D numeric array carrying its column
count (numpy arrays are rectangular, so the count is part of the value). -/
inductive NpValue where
  | null : NpValue
  | arr1 : List ℚ → NpValue
  | arr2 : Nat → List (List ℚ) → NpValue
  deriving DecidableEq, Repr

/-- Negation of the Python test `v is not None and len(v) > 0` used by the
emptiness scan of DataObject.__add__: a field counts as empty when it is
None or has length zero (len of a 2-D array is its row count). -/
def NpValue.isEmptyVal : NpValue → Bool
  | NpValue.null => true
  | NpValue.arr1 xs => xs.isEmpty
  | NpValue.arr2 _ rows => rows.isEmpty

/-- numpy ndim of a non-None value; the None case is never consulted since
attribute access on None raises AttributeError, modelled separately. -/
def NpValue.ndim : NpValue → Nat
  | NpValue.null => 0
  | NpValue.arr1 _ => 1
  | NpValue.arr2 _ _ => 2

/-- Dictionary read all_arrays[name]; absence gives Python KeyError /
AttributeError, modelled by Option. -/
def getField : List (String × NpValue) → String → Option NpValue
  | [], _ => Option.none
  | kv :: rest, k => if kv.1 = k then some kv.2 else getField rest k

/-- Dictionary write all_arrays[name] = v: replace the binding when the key
exists, append it otherwise. -/
def setField : List (String × NpValue) → String → NpValue → List (String × NpValue)
  | [], k, v => [(k, v)]
  | kv :: rest, k, v => if kv.1 = k then (k, v) :: rest else kv :: setField rest k v

/-- Keys that DataObject.__add__ sends to its dedicated 2-D stacking branch;
for 2-D values that branch performs the same axis-0 concatenation as the
generic ndim == 2 branch. -/
def segmentKeys : List String :=
  ["segment_nwp_geoheight", "segment_nwp_moist", "segment_nwp_pressure", "segment_nwp_temp"]

/-- np.concatenate of a 2-D array with another value along axis 0, wrapped
in the try/except ValueError of the source: concatenation succeeds only
with another 2-D array of the same column count; every failing case (column
mismatch, rank mismatch, None operand) raises ValueError, and the handler
replaces the value by the second operand value. -/
def concat2 (c : Nat) (xss : List (List ℚ)) (ov : NpValue) : NpValue :=
  match ov with
  | NpValue.arr2 c2 yss => if c = c2 then NpValue.arr2 c (xss ++ yss) else ov
  | _ => ov

/-- Body of the second try block of DataObject.__add__ for a non-None value
of the first operand: a 1-D array concatenates when the other side is also
1-D (np.concatenate with a None or 2-D other side raises ValueError, which
the handler turns into taking the other side value); a 2-D array
concatenates along axis 0, through the segment_nwp branch or the generic
ndim == 2 branch, which do the same thing. -/
def tryConcat (k : String) (sv ov : NpValue) : NpValue :=
  match sv with
  | NpValue.null => ov
  | NpValue.arr1 xs =>
    match ov with
    | NpValue.arr1 ys => NpValue.arr1 (xs ++ ys)
    | _ => ov
  | NpValue.arr2 c xss =>
    if k ∈ segmentKeys then concat2 c xss ov else concat2 c xss ov

/-- Per-field result of DataObject.__add__ for one key of the first
operand.  A None value raises AttributeError at the .ndim access, and the
first handler takes the other side value and continues. -/
def addField (k : String) (sv ov : NpValue) : NpValue :=
  match sv with
  | NpValue.null => ov
  | _ => tryConcat k sv ov

/-- Per-field step with the explicit rank guard of the source kept as an
error outcome: after the AttributeError case, the source compares
self.all_arrays[key].ndim against itself and raises ValueError on mismatch
(that raise is not caught by either handler). -/
def addFieldE (k : String) (sv ov : NpValue) : Except String NpValue :=
  match sv with
  | NpValue.null => Except.ok ov
  | sv =>
    if sv.ndim ≠ sv.ndim then
      Except.error ("Cannot concatenate arrays of different dimensions")
    else Except.ok (tryConcat k sv ov)

/-- Emptiness scan over all fields of one operand of DataObject.__add__. -/
def isEmptyObj (s : List (String × NpValue)) : Bool :=
  s.all fun kv => kv.2.isEmptyVal

/-- Loop of DataObject.__add__ over the keys of the first operand.  The
second operand is read per key; operands share the CalipsoObject schema, so
the default for a missing key is never exercised in the verified claims
(Python would raise KeyError there). -/
def addEntries (o s : List (String × NpValue)) : List (String × NpValue) :=
  s.map fun kv => (kv.1, addField kv.1 kv.2 ((getField o kv.1).getD NpValue.null))

/-- DataObject.__add__: an empty first operand returns the second operand,
an empty second operand returns the first, otherwise the per-key loop
runs.  The Python method mutates and returns self; the value of the
returned object is modelled. -/
def addObj (s o : List (String × NpValue)) : List (String × NpValue) :=
  if isEmptyObj s then o
  else if isEmptyObj o then s
  else addEntries o s

/-- Loop of DataObject.__add__ with the explicit rank-guard raise kept as
an error outcome. -/
def addEntriesE (o : List (String × NpValue)) :
    List (String × NpValue) → Except String (List (String × NpValue))
  | [] => Except.ok []
  | kv :: rest =>
    match addFieldE kv.1 kv.2 ((getField o kv.1).getD NpValue.null) with
    | Except.error e => Except.error e
    | Except.ok v =>
      match addEntriesE o rest with
      | Except.error e => Except.error e
      | Except.ok tail => Except.ok ((kv.1, v) :: tail)

/-- DataObject.__add__ with the explicit rank-guard raise kept as an error
outcome. -/
def addObjE (s o : List (String × NpValue)) : Except String (List (String × NpValue)) :=
  if isEmptyObj s then Except.ok o
  else if isEmptyObj o then Except.ok s
  else addEntriesE o s

/-- Structural helper for np.reshape(-1, k): the fuel argument makes the
recursion structural, and length xs steps always suffice. -/
def chunksOfAux (k : Nat) : Nat → List α → List (List α)
  | 0, _ => []
  | _, [] => []
  | fuel + 1, x :: xs => ((x :: xs).take k) :: chunksOfAux k fuel ((x :: xs).drop k)

/-- np.reshape(-1, k): split a flat array into rows of k.  numpy raises on
lengths not divisible by k; the claims verified here only use the produced
rows, whose lengths never exceed k. -/
def chunksOf (k : Nat) (xs : List α) : List (List α) :=
  chunksOfAux k xs.length xs

/-- Wrap-around semantics of numpy astype(np.int8). -/
def int8 (n : Int) : Int := (n + 128) % 256 - 128

/-- Lines 191-199 of the source: reshape ssNumber_Layers_Found into rows of
15, count the zero entries of each row (clear shots) and cast to int8,
subtract from 15 to get the cloudy count, and cast to int8 again.  All
counts lie in 0..15, so neither cast wraps. -/
def numberCloudySingleShots (layers : List Int) : List Int :=
  (chunksOf 15 layers).map fun g => int8 (15 - int8 ((g.count 0 : Nat) : Int))

/-- np.where(a > 0, a, 0.0) applied elementwise: values that are negative
or zero are clamped to 0. -/
def clampPos (x : ℚ) : ℚ := if 0 < x then x else 0

/-- reshape(-1, 5) followed by the column selection [:, 0]: the first value
of every block of 5. -/
def columnZeroOfFive (vals : List ℚ) : List ℚ :=
  (chunksOf 5 vals).map fun g => g.headD 0

/-- The per-footprint rows of clamped first-layer values: column 0 of every
5-block, regrouped into rows of 15, each entry clamped. -/
def clampedFootprintRows (vals : List ℚ) : List (List ℚ) :=
  (chunksOf 15 (columnZeroOfFive vals)).map (List.map clampPos)

/-- np.where(cloudy > 0, np.divide(sum, cloudy), -9.0) for one footprint:
only the branch selected by the condition is kept (numpy materialises the
division on every row, but np.where discards it on rows with cloudy = 0 and
yields the sentinel there). -/
def footprintMean (c : Int) (row : List ℚ) : ℚ :=
  if 0 < c then row.sum / (c : ℚ) else -9

/-- Lines 202-212 of the source (and the two analogous top-metric blocks):
clamped per-footprint rows summed and divided by the cloudy counts, with
sentinel -9.0 where the cloudy count is zero. -/
def averageSingleShots (cloudy : List Int) (vals : List ℚ) : List ℚ :=
  List.zipWith footprintMean cloudy (clampedFootprintRows vals)

/-- The average_cloud_base_single_shots pipeline: cloudy counts from the
layer counts, means from the base altitudes. -/
def averageCloudBaseSingleShots (layers : List Int) (bases : List ℚ) : List ℚ :=
  averageSingleShots (numberCloudySingleShots layers) bases

/-- The four parallel raw arrays passed to the single-shot reducer. -/
structure SSArrays where
  numberLayersFound : List Int
  layerBaseAltitude : List ℚ
  layerTopPressure : List ℚ
  layerTopAltitude : List ℚ
  deriving Repr

/-- A record collection value: the all_arrays mapping of a DataObject. -/
abbrev Retv := List (String × NpValue)

/-- rearrange_calipso_the_single_shot_info: stores the cloudy counts, the
reshaped int8 raw data, and the three per-footprint averages on the target
collection.  The disabled RESOLUTION == 1 block (if False:) is dead code
and is not modelled. -/
def rearrangeSingleShot (retv : Retv) (ss : SSArrays) : Retv :=
  let cloudy := numberCloudySingleShots ss.numberLayersFound
  let r1 := setField retv ("number_cloudy_single_shots")
    (NpValue.arr1 (cloudy.map fun n => (n : ℚ)))
  let r2 := setField r1 ("single_shot_data")
    (NpValue.arr2 15 ((chunksOf 15 ss.numberLayersFound).map (List.map fun n => ((int8 n : Int) : ℚ))))
  let r3 := setField r2 ("average_cloud_base_single_shots")
    (NpValue.arr1 (averageSingleShots cloudy ss.layerBaseAltitude))
  let r4 := setField r3 ("average_cloud_top_pressure_single_shots")
    (NpValue.arr1 (averageSingleShots cloudy ss.layerTopPressure))
  setField r4 ("average_cloud_top_single_shots")
    (NpValue.arr1 (averageSingleShots cloudy ss.layerTopAltitude))

/-- Keys of the scip_these_larger_variables_until_needed dictionary (its
values are all True and only membership of the key set is consulted). -/
def scipTheseLargerVariablesUntilNeeded : List String :=
  ["Spacecraft_Position",
   "Attenuated_Backscatter_Statistics_1064",
   "Attenuated_Backscatter_Statistics_532",
   "Attenuated_Total_Color_Ratio_Statistics",
   "Volume_Depolarization_Ratio_Statistics",
   "Particulate_Depolarization_Ratio_Statistics",
   "Cirrus_Shape_Parameter",
   "Cirrus_Shape_Parameter_Invalid_Points",
   "Cirrus_Shape_Parameter_Uncertainty"]

/-- The atrain_match_names rename map. -/
def atrainMatchNames : List (String × String) :=
  [("Snow_Ice_Surface_Type", "nsidc_surface_type"),
   ("Profile_Time", "profile_time_tai")]

/-- The fixed new-format groups skipped by read_calipso_h5. -/
def newFormatGroups : List String :=
  ["Lidar_Surface_Detection", "metadata_t", "metadata"]

/-- Python str.lower applied per character; all dataset names involved are
ASCII.  Defined over the character data directly so that evaluation is
structural. -/
def lowercase (s : String) : String := String.mk (s.data.map Char.toLower)

/-- name = dataset.lower(), substituted through atrain_match_names when the
dataset has an entry there. -/
def canonicalName (d : String) : String :=
  match List.lookup d atrainMatchNames with
  | some n => n
  | Option.none => lowercase d

/-- Model of an opened HDF5 file: the list of top-level names in iteration
order, each paired with the outcome of reading its full array (both the
.value path and the [:] fallback of the source read the full array; names
that are skipped never have their outcome consulted), plus the combined
outcome of the four Single_Shot_Detection sub-reads. -/
structure H5File where
  datasets : List (String × Except Unit NpValue)
  ssData : Except Unit SSArrays

/-- Dataset loop of read_calipso_h5: skip the single-shot group, the
new-format groups and the skip-list, and assign every other dataset under
its canonical name; a failing read propagates its exception. -/
def loadDatasets : Retv → List (String × Except Unit NpValue) → Except Unit Retv
  | retv, [] => Except.ok retv
  | retv, (d, rd) :: rest =>
    if d = "Single_Shot_Detection" then loadDatasets retv rest
    else if d ∈ newFormatGroups then loadDatasets retv rest
    else if d ∈ scipTheseLargerVariablesUntilNeeded then loadDatasets retv rest
    else
      match rd with
      | Except.error e => Except.error e
      | Except.ok v => loadDatasets (setField retv (canonicalName d) v) rest

/-- read_calipso_h5.  The Bool of the result records whether h5file.close()
executed before the call returned; the source calls close only at the end
of the non-failing path, with no try/finally, so a propagating read failure
leaves the handle open. -/
def readCalipsoH5 (fOpt : Option H5File) (retv : Retv) : Except Unit Retv × Bool :=
  match fOpt with
  | Option.none => (Except.ok retv, true)
  | some f =>
    let step1 : Except Unit Retv :=
      if "Single_Shot_Detection" ∈ f.datasets.map Prod.fst then
        match f.ssData with
        | Except.error e => Except.error e
        | Except.ok ss => Except.ok (rearrangeSingleShot retv ss)
      else Except.ok retv
    match step1 with
    | Except.error e => (Except.error e, false)
    | Except.ok r1 =>
      match loadDatasets r1 f.datasets with
      | Except.error e => (Except.error e, false)
      | Except.ok r2 => (Except.ok r2, true)

/-- Gregorian leap-year rule. -/
def isLeapYear (y : Nat) : Bool := ((y % 4 == 0) && (y % 100 != 0)) || (y % 400 == 0)

/-- Exact day count from 1970-01-01 to 1993-01-01 by the Gregorian
calendar; this is the .days of datetime(1993,1,1) - datetime(1970,1,1). -/
def daysFrom1970To1993 : Nat :=
  ((List.range (1993 - 1970)).map fun i => if isLeapYear (1970 + i) then 366 else 365).sum

/-- Epoch seconds of 1993-01-01T00:00:00Z. -/
def epoch1993 : Int := (daysFrom1970To1993 : Int) * 86400

/-- Timezone state of the host environment.  mktime called with
tm_isdst = 0 (the ninth element of the tuple passed in the source)
interprets the broken-down time with the standard offset its timezone rules
assign to that date, while time.timezone holds the standard offset of the
current rules; the two differ for zones whose standard offset changed
between 1993 and the run date. -/
structure TZEnv where
  stdOffsetEastAt1993 : Int
  stdOffsetEastNow : Int
  deriving DecidableEq, Repr

/-- time.mktime((1993, 1, 1, 0, 0, 0, 0, 0, 0)): epoch seconds of local
standard midnight 1993-01-01, per the documented C mktime semantics for
tm_isdst = 0. -/
def mktime19930101 (tz : TZEnv) : Int := epoch1993 - tz.stdOffsetEastAt1993

/-- time.timezone: seconds west of UTC of current standard time. -/
def timeTimezone (tz : TZEnv) : Int := - tz.stdOffsetEastNow

/-- dsec of read_calipso, line 303. -/
def dsec (tz : TZEnv) : Int := mktime19930101 tz - timeTimezone tz

/-- dsec2 of read_calipso, lines 304-305: the timezone-independent value. -/
def dsec2 : Int := (daysFrom1970To1993 : Int) * 24 * 60 * 60

/-- Line 306-307: the consistency check prints WARNING when dsec and dsec2
disagree; it has no corrective action. -/
def epochWarning (tz : TZEnv) : Bool := dsec tz != dsec2

/-- Line 322: sec_1970 = profile_time_tai + dsec, applied per profile. -/
def sec1970 (tz : TZEnv) (profileTimeTai : ℚ) : ℚ := profileTimeTai + ((dsec tz : Int) : ℚ)

/-- Environment with the timezone rules of Asia/Almaty as of 2026: the
standard offset governing 1993-01-01 was UTC+6 (21600 s east) and the
current standard offset is UTC+5 (18000 s east), so time.timezone is
-18000. -/
def almatyEnv : TZEnv := ⟨21600, 18000⟩

/-- One footprint of layer counts with 5 cloudy and 10 clear shots. -/
def layersExample : List Int := [1, 1, 1, 1, 1, 0, 0, 0, 0, 0, 0, 0, 0, 0, 0]

/-- 75 raw base-altitude values (15 shots of 5 layer slots): the first 5
shots have first-layer base 10, the other 10 shots have -1 there, so the
clamped first-layer sum is 50. -/
def basesExample : List ℚ :=
  (List.replicate 5 [(10 : ℚ), 0, 0, 0, 0] ++ List.replicate 10 [(-1 : ℚ), 0, 0, 0, 0]).flatten

/-- One footprint whose 15 layer counts are all nonzero. -/
def allCloudyLayers : List Int := List.replicate 15 1

/-- 75 raw base-altitude values that are all negative. -/
def allNegBases : List ℚ := List.replicate 75 (-1)

/-- A file whose only dataset fails to read. -/
def failFile : H5File := ⟨[("Latitude", Except.error ())], Except.ok ⟨[], [], [], []⟩⟩

/-- A file whose only dataset reads successfully. -/
def okFile : H5File :=
  ⟨[("Latitude", Except.ok (NpValue.arr2 2 [[1, 2], [3, 4]]))], Except.ok ⟨[], [], [], []⟩⟩

/-- A non-empty collection holding a 1-D elevation array. -/
def addLeft : Retv := [("latitude", NpValue.arr1 [1]), ("elevation", NpValue.arr1 [2])]

/-- A non-empty collection whose elevation field is None. -/
def addRight : Retv := [("latitude", NpValue.arr1 [3]), ("elevation", NpValue.null)]

/-- An empty collection whose field is None. -/
def emptyNullObj : Retv := [("longitude", NpValue.null)]

/-- An empty collection whose field is a zero-length array. -/
def emptyArrObj : Retv := [("longitude", NpValue.arr1 [])]

/-- A non-empty one-field collection. -/
def smallObj : Retv := [("longitude", NpValue.arr1 [7])]

theorem getField_map (f : String → NpValue → NpValue) (s : Retv) (k : String) :
    getField (s.map fun kv => (kv.1, f kv.1 kv.2)) k = (getField s k).map (f k) := by
  induction s with
  | nil => rfl
  | cons kv rest ih =>
    by_cases h : kv.1 = k
    · subst h
      simp [getField]
    · simp [getField, h, ih]

theorem getField_setField (r : Retv) (k2 k : String) (v : NpValue) :
    getField (setField r k2 v) k = if k2 = k then some v else getField r k := by
  induction r with
  | nil => simp [setField, getField]
  | cons kv rest ih =>
    by_cases h1 : kv.1 = k2
    · by_cases h2 : k2 = k
      · simp [setField, h1, getField, h2]
      · have h3 : kv.1 ≠ k := by rw [h1]; exact h2
        simp [setField, h1, getField, h2, h3]
    · by_cases h2 : kv.1 = k
      · have h4 : k2 ≠ k := by
          intro hh
          exact h1 (by rw [h2, hh])
        have h5 : k ≠ k2 := Ne.symm h4
        simp [setField, getField, h1, h2, h4, h5]
      · simp [setField, getField, h1, h2, ih]

theorem get?_zipWith (f : α → β → γ) (as : List α) (bs : List β) (i : Nat) :
    (List.zipWith f as bs).get? i
      = (as.get? i).bind fun a => (bs.get? i).map fun b => f a b := by
  induction as generalizing bs i with
  | nil => simp
  | cons a as ih =>
    cases bs with
    | nil => simp
    | cons b bs =>
      cases i with
      | zero => simp
      | succ i => simpa using ih bs i

theorem length_le_of_mem_chunksOfAux (k : Nat) :
    ∀ (fuel : Nat) (xs : List α) (g : List α), g ∈ chunksOfAux k fuel xs → g.length ≤ k := by
  intro fuel
  induction fuel with
  | zero =>
    intro xs g h
    simp [chunksOfAux] at h
  | succ fuel ih =>
    intro xs g h
    cases xs with
    | nil => simp [chunksOfAux] at h
    | cons x xs =>
      simp only [chunksOfAux, List.mem_cons] at h
      cases h with
      | inl h =>
        subst h
        rw [List.length_take]
        exact Nat.min_le_left _ _
      | inr h => exact ih _ _ h

theorem int8_of_small (n : Int) (h0 : 0 ≤ n) (h1 : n ≤ 127) : int8 n = n := by
  unfold int8
  omega

theorem averageSingleShots_get? (cloudy : List Int) (vals : List ℚ) (i : Nat)
    (c : Int) (g : List ℚ)
    (hc : cloudy.get? i = some c)
    (hg : (chunksOf 15 (columnZeroOfFive vals)).get? i = some g) :
    (averageSingleShots cloudy vals).get? i
      = some (if 0 < c then (g.map clampPos).sum / (c : ℚ) else -9) := by
  unfold averageSingleShots clampedFootprintRows
  rw [get?_zipWith, hc, List.get?_map, hg]
  simp [footprintMean]

theorem addFieldE_ok (k : String) (sv ov : NpValue) :
    addFieldE k sv ov = Except.ok (addField k sv ov) := by
  cases sv <;> simp [addFieldE, addField]

theorem addEntriesE_ok (o s : Retv) :
    addEntriesE o s = Except.ok (addEntries o s) := by
  induction s with
  | nil => rfl
  | cons kv rest ih => simp [addEntriesE, addEntries, addFieldE_ok, ih]

theorem loadDatasets_preserve (ds : List (String × Except Unit NpValue)) :
    ∀ (retv out : Retv) (k : String),
      loadDatasets retv ds = Except.ok out →
      (getField retv k).isSome = true → (getField out k).isSome = true := by
  induction ds with
  | nil =>
    intro retv out k h hk
    simp only [loadDatasets, Except.ok.injEq] at h
    rw [← h]
    exact hk
  | cons p rest ih =>
    intro retv out k h hk
    obtain ⟨d, rd⟩ := p
    simp only [loadDatasets] at h
    split_ifs at h with h1 h2 h3
    · exact ih _ _ _ h hk
    · exact ih _ _ _ h hk
    · exact ih _ _ _ h hk
    · cases rd with
      | error e => exact Except.noConfusion h
      | ok v =>
        apply ih _ _ _ h
        rw [getField_setField]
        split_ifs with h4
        · simp
        · exact hk

theorem loadDatasets_mem (ds : List (String × Except Unit NpValue)) :
    ∀ (retv out : Retv) (d : String),
      loadDatasets retv ds = Except.ok out →
      d ∈ ds.map Prod.fst →
      d ≠ "Single_Shot_Detection" →
      d ∉ newFormatGroups →
      d ∉ scipTheseLargerVariablesUntilNeeded →
      (getField out (canonicalName d)).isSome = true := by
  induction ds with
  | nil =>
    intro retv out d _ hmem _ _ _
    simp at hmem
  | cons p rest ih =>
    intro retv out d h hmem hd1 hd2 hd3
    obtain ⟨d0, rd⟩ := p
    simp only [List.map_cons, List.mem_cons] at hmem
    simp only [loadDatasets] at h
    split_ifs at h with h1 h2 h3
    · cases hmem with
      | inl heq => exact absurd (heq.trans h1) hd1
      | inr hm => exact ih _ _ _ h hm hd1 hd2 hd3
    · cases hmem with
      | inl heq =>
        exact absurd (by rw [heq]; exact h2) hd2
      | inr hm => exact ih _ _ _ h hm hd1 hd2 hd3
    · cases hmem with
      | inl heq =>
        exact absurd (by rw [heq]; exact h3) hd3
      | inr hm => exact ih _ _ _ h hm hd1 hd2 hd3
    · cases rd with
      | error e => exact Except.noConfusion h
      | ok v =>
        cases hmem with
        | inl heq =>
          subst heq
          apply loadDatasets_preserve rest _ _ _ h
          rw [getField_setField]
          simp
        | inr hm => exact ih _ _ _ h hm hd1 hd2 hd3

/-- Claim C1 (code evaluation at the failing environment): dsec2, the
timezone-independent computation, equals 725846400, but the value dsec that
read_calipso actually adds to the extracted profile time depends on the
local timezone state: in an environment with the Asia/Almaty rules (whose
standard offset changed from UTC+6, governing 1993-01-01, to UTC+5, the
current value behind time.timezone) dsec is 725842800, the code only prints
WARNING about the mismatch, and sec_1970 is shifted by -3600 seconds. -/
theorem c1_epoch_offset_code_eval :
    dsec2 = 725846400
    ∧ dsec almatyEnv = 725842800
    ∧ dsec almatyEnv ≠ 725846400
    ∧ epochWarning almatyEnv = true
    ∧ sec1970 almatyEnv 0 ≠ (725846400 : ℚ) := by
  have hd : dsec almatyEnv = 725842800 := by decide
  refine ⟨by decide, hd, by decide, by decide, ?_⟩
  unfold sec1970
  rw [hd]
  norm_num

/-- Claim C2: for every footprint, the stored mean base altitude is the sum
of the 15 first-layer base values with negative-or-zero entries clamped to
0, divided by the cloudy-shot count of that footprint, and exactly -9 when
that count is 0; moreover the concrete footprint with cloudy count 5 and
clamped base sum 50 gets mean 10. -/
theorem c2_single_shot_mean (layers : List Int) (bases : List ℚ) (i : Nat)
    (c : Int) (g : List ℚ)
    (hc : (numberCloudySingleShots layers).get? i = some c)
    (hg : (chunksOf 15 (columnZeroOfFive bases)).get? i = some g) :
    (averageCloudBaseSingleShots layers bases).get? i
      = some (if 0 < c then (g.map fun x => if 0 < x then x else 0).sum / (c : ℚ) else -9)
    ∧ (averageCloudBaseSingleShots layersExample basesExample).get? 0 = some 10 := by
  constructor
  · have h := averageSingleShots_get? (numberCloudySingleShots layers) bases i c g hc hg
    simpa [averageCloudBaseSingleShots, clampPos] using h
  · have hc2 : (numberCloudySingleShots layersExample).get? 0 = some 5 := by decide
    have hg2 : (chunksOf 15 (columnZeroOfFive basesExample)).get? 0
        = some [10, 10, 10, 10, 10, -1, -1, -1, -1, -1, -1, -1, -1, -1, -1] := by decide
    have h := averageSingleShots_get? (numberCloudySingleShots layersExample)
      basesExample 0 5 [10, 10, 10, 10, 10, -1, -1, -1, -1, -1, -1, -1, -1, -1, -1] hc2 hg2
    unfold averageCloudBaseSingleShots
    rw [h]
    norm_num [clampPos]

/-- Witness for C2 at the concrete footprint of the claim: cloudy count 5,
raw first-layer bases [10, 10, 10, 10, 10, -1, ..., -1], clamped sum 50,
mean 10. -/
theorem c2_witness :
    (averageCloudBaseSingleShots layersExample basesExample).get? 0
      = some (if 0 < (5 : Int) then
          (([10, 10, 10, 10, 10, -1, -1, -1, -1, -1, -1, -1, -1, -1, -1].map
            fun x => if 0 < x then x else (0 : ℚ)).sum / ((5 : Int) : ℚ))
        else -9) :=
  (c2_single_shot_mean layersExample basesExample 0 5
    [10, 10, 10, 10, 10, -1, -1, -1, -1, -1, -1, -1, -1, -1, -1]
    (by decide) (by decide)).1

/-- Claim C3: for every group produced by reshaping the layer counts into
rows of 15, the stored number_cloudy_single_shots value is 15 minus the
count of zero entries of that group (the int8 casts never wrap because the
counts lie in 0..15); the group [0,0,0,1,1,1,1,1,1,1,1,1,1,1,1] gives 12. -/
theorem c3_cloudy_count (layers : List Int) (i : Nat) (g : List Int)
    (hg : (chunksOf 15 layers).get? i = some g) :
    (numberCloudySingleShots layers).get? i = some (15 - (g.count 0 : Int))
    ∧ numberCloudySingleShots [0, 0, 0, 1, 1, 1, 1, 1, 1, 1, 1, 1, 1, 1, 1] = [12] := by
  constructor
  · have hmem : g ∈ chunksOf 15 layers := List.get?_mem hg
    have hlen : g.length ≤ 15 := length_le_of_mem_chunksOfAux 15 layers.length layers g hmem
    have hcount : g.count 0 ≤ 15 := le_trans (List.count_le_length 0 g) hlen
    have hc0 : (0 : Int) ≤ ((g.count 0 : Nat) : Int) := Int.natCast_nonneg _
    have hc127 : ((g.count 0 : Nat) : Int) ≤ 127 := by
      exact_mod_cast le_trans hcount (by norm_num)
    unfold numberCloudySingleShots
    rw [List.get?_map, hg]
    simp only [Option.map_some']
    rw [int8_of_small _ hc0 hc127, int8_of_small _ (by omega) (by omega)]
  · decide

/-- Witness for C3 at the group of the claim. -/
theorem c3_witness :
    (numberCloudySingleShots [0, 0, 0, 1, 1, 1, 1, 1, 1, 1, 1, 1, 1, 1, 1]).get? 0
      = some (15 - (([0, 0, 0, 1, 1, 1, 1, 1, 1, 1, 1, 1, 1, 1, 1] : List Int).count 0 : Int)) :=
  (c3_cloudy_count [0, 0, 0, 1, 1, 1, 1, 1, 1, 1, 1, 1, 1, 1, 1] 0
    [0, 0, 0, 1, 1, 1, 1, 1, 1, 1, 1, 1, 1, 1, 1] (by decide)).1

/-- Claim C4 counterexample: a footprint whose 15 reshaped base-altitude
values are all -1 (hence all nonpositive) while its 15 layer counts are all
1 yields mean base 0, not the sentinel -9, because the sentinel only
triggers when the cloudy count, which comes from the layer counts, is 0. -/
theorem c4_counterexample :
    chunksOf 15 (columnZeroOfFive allNegBases) = [List.replicate 15 (-1)]
    ∧ (averageCloudBaseSingleShots allCloudyLayers allNegBases).get? 0 = some 0
    ∧ (averageCloudBaseSingleShots allCloudyLayers allNegBases).get? 0 ≠ some (-9) := by
  have h1 : chunksOf 15 (columnZeroOfFive allNegBases) = [List.replicate 15 (-1)] := by decide
  have hc : (numberCloudySingleShots allCloudyLayers).get? 0 = some 15 := by decide
  have hg : (chunksOf 15 (columnZeroOfFive allNegBases)).get? 0
      = some (List.replicate 15 (-1)) := by
    rw [h1]
    rfl
  have h := averageSingleShots_get? (numberCloudySingleShots allCloudyLayers)
    allNegBases 0 15 (List.replicate 15 (-1)) hc hg
  have h2 : (averageCloudBaseSingleShots allCloudyLayers allNegBases).get? 0 = some 0 := by
    unfold averageCloudBaseSingleShots
    rw [h]
    norm_num [clampPos]
  refine ⟨h1, h2, ?_⟩
  rw [h2]
  intro hcontra
  have h3 : (0 : ℚ) = -9 := Option.some.inj hcontra
  norm_num at h3

/-- Claim C4 as amended: for every footprint whose 15 reshaped
base-altitude values are all nonpositive, the stored mean base is the
sentinel -9 when the cloudy count of the footprint is 0, and exactly 0
(never NaN) when the cloudy count is positive. -/
theorem c4_all_nonpositive_mean (layers : List Int) (bases : List ℚ) (i : Nat)
    (c : Int) (g : List ℚ)
    (hc : (numberCloudySingleShots layers).get? i = some c)
    (hg : (chunksOf 15 (columnZeroOfFive bases)).get? i = some g)
    (hneg : ∀ x ∈ g, x ≤ 0) :
    (averageCloudBaseSingleShots layers bases).get? i
      = some (if 0 < c then 0 else -9) := by
  have h := averageSingleShots_get? (numberCloudySingleShots layers) bases i c g hc hg
  have hz : (g.map clampPos).sum = 0 := by
    apply List.sum_eq_zero
    intro x hx
    simp only [List.mem_map] at hx
    obtain ⟨y, hy, rfl⟩ := hx
    have : ¬ 0 < y := not_lt.mpr (hneg y hy)
    simp [clampPos, this]
  unfold averageCloudBaseSingleShots
  rw [h, hz]
  simp

/-- Witness for the amended C4 at the all-cloudy, all-negative footprint. -/
theorem c4_witness :
    (averageCloudBaseSingleShots allCloudyLayers allNegBases).get? 0
      = some (if 0 < (15 : Int) then 0 else -9) :=
  c4_all_nonpositive_mean allCloudyLayers allNegBases 0 15 (List.replicate 15 (-1))
    (by decide) (by decide) (by decide)

/-- Claim C5 counterexample: both collections are non-empty and the
elevation field is present (a 1-D array) in the first operand only, yet the
concatenation holds None for it, not the present side value: the attempted
np.concatenate with None raises ValueError and the handler overwrites the
field with the absent side None. -/
theorem c5_counterexample :
    isEmptyObj addLeft = false
    ∧ isEmptyObj addRight = false
    ∧ getField addLeft ("elevation") = some (NpValue.arr1 [2])
    ∧ getField addRight ("elevation") = some NpValue.null
    ∧ getField (addObj addLeft addRight) ("elevation") ≠ some (NpValue.arr1 [2])
    ∧ getField (addObj addLeft addRight) ("elevation") = some NpValue.null := by
  refine ⟨by decide, by decide, by decide, by decide, by decide, by decide⟩

/-- Claim C5 as amended: concatenating two non-empty collections, a field
that is None in the first operand and present in the second takes the
second operand value, but a field that is a 1-D or a 2-D array in the
first operand and None in the second is overwritten by None, so the
present side value survives only when the second operand holds it. -/
theorem c5_one_sided_field (s o : Retv) (k : String) (v : NpValue)
    (xs : List ℚ) (w : Nat) (xss : List (List ℚ))
    (hs : isEmptyObj s = false) (ho : isEmptyObj o = false) :
    (getField s k = some NpValue.null → getField o k = some v →
      getField (addObj s o) k = some v)
    ∧ (getField s k = some (NpValue.arr1 xs) → getField o k = some NpValue.null →
      getField (addObj s o) k = some NpValue.null)
    ∧ (getField s k = some (NpValue.arr2 w xss) → getField o k = some NpValue.null →
      getField (addObj s o) k = some NpValue.null) := by
  have hobj : addObj s o = addEntries o s := by simp [addObj, hs, ho]
  have hmap : getField (addEntries o s) k
      = (getField s k).map fun sv => addField k sv ((getField o k).getD NpValue.null) :=
    getField_map (fun a b => addField a b ((getField o a).getD NpValue.null)) s k
  refine ⟨?_, ?_, ?_⟩
  · intro h1 h2
    rw [hobj, hmap, h1, h2]
    rfl
  · intro h1 h2
    rw [hobj, hmap, h1, h2]
    rfl
  · intro h1 h2
    rw [hobj, hmap, h1, h2]
    simp [addField, tryConcat, concat2]

/-- Witness for the amended C5: the direction in which the second operand
holds the field. -/
theorem c5_witness :
    getField (addObj addRight addLeft) ("elevation") = some (NpValue.arr1 [2]) :=
  (c5_one_sided_field addRight addLeft ("elevation") (NpValue.arr1 [2]) [] 0 []
    (by decide) (by decide)).1 (by decide) (by decide)

/-- Claim C6 counterexample: loading a file whose only dataset read fails
returns the failure with the handle still open (close was not executed),
so the handle is not released before the failure propagates. -/
theorem c6_counterexample :
    readCalipsoH5 (some failFile) ([] : Retv) = (Except.error (), false) := rfl

/-- Claim C6 as amended: the handle opened by read_calipso_h5 is closed
before returning exactly on the non-failing path; when an intermediate
dataset read fails, the failure propagates with the handle still open
(released only later by garbage collection). -/
theorem c6_handle_close (f : H5File) (retv : Retv) :
    (∀ r, (readCalipsoH5 (some f) retv).1 = Except.ok r →
      (readCalipsoH5 (some f) retv).2 = true)
    ∧ (∀ e, (readCalipsoH5 (some f) retv).1 = Except.error e →
      (readCalipsoH5 (some f) retv).2 = false) := by
  constructor
  · intro r hr
    by_cases hss : "Single_Shot_Detection" ∈ f.datasets.map Prod.fst
    · cases hsd : f.ssData with
      | error e => simp [readCalipsoH5, hss, hsd] at hr
      | ok ss =>
        cases hl : loadDatasets (rearrangeSingleShot retv ss) f.datasets with
        | error e => simp [readCalipsoH5, hss, hsd, hl] at hr
        | ok r2 => simp [readCalipsoH5, hss, hsd, hl]
    · cases hl : loadDatasets retv f.datasets with
      | error e => simp [readCalipsoH5, hss, hl] at hr
      | ok r2 => simp [readCalipsoH5, hss, hl]
  · intro e he
    by_cases hss : "Single_Shot_Detection" ∈ f.datasets.map Prod.fst
    · cases hsd : f.ssData with
      | error e2 => simp [readCalipsoH5, hss, hsd]
      | ok ss =>
        cases hl : loadDatasets (rearrangeSingleShot retv ss) f.datasets with
        | error e2 => simp [readCalipsoH5, hss, hsd, hl]
        | ok r2 => simp [readCalipsoH5, hss, hsd, hl] at he
    · cases hl : loadDatasets retv f.datasets with
      | error e2 => simp [readCalipsoH5, hss, hl]
      | ok r2 => simp [readCalipsoH5, hss, hl] at he

/-- Witness for the amended C6 at a successfully loading file. -/
theorem c6_witness :
    (readCalipsoH5 (some okFile) ([] : Retv)).2 = true :=
  (c6_handle_close okFile ([] : Retv)).1
    [("latitude", NpValue.arr2 2 [[1, 2], [3, 4]])] (by rfl)

/-- Claim C7 counterexample: with an empty first operand c (its single
field is None) and an empty second operand e (its single field is a
zero-length array), c + e returns e, whose field value differs from the
field value of c, so the result is not equal in value to c. -/
theorem c7_counterexample :
    isEmptyObj emptyNullObj = true
    ∧ isEmptyObj emptyArrObj = true
    ∧ addObj emptyNullObj emptyArrObj ≠ emptyNullObj := by
  refine ⟨by decide, by decide, by decide⟩

/-- Claim C7 as amended: for every empty collection e, e + c returns c
unchanged for every c (the empty first operand is absorbed immediately),
and c + e returns c unchanged whenever c is non-empty; when c is itself
empty, c + e returns e instead, which can differ from c field-by-field
(None versus a zero-length array), so only that direction of the original
claim fails. -/
theorem c7_empty_absorption (c e : Retv) (he : isEmptyObj e = true) :
    addObj e c = c
    ∧ (isEmptyObj c = false → addObj c e = c)
    ∧ (isEmptyObj c = true → addObj c e = e) := by
  refine ⟨?_, ?_, ?_⟩
  · simp [addObj, he]
  · intro hc
    simp [addObj, hc, he]
  · intro hc
    simp [addObj, hc]

/-- Witness for the amended C7. -/
theorem c7_witness :
    addObj emptyNullObj smallObj = smallObj
    ∧ addObj smallObj emptyNullObj = smallObj
    ∧ addObj emptyArrObj emptyNullObj = emptyNullObj :=
  ⟨(c7_empty_absorption smallObj emptyNullObj (by decide)).1,
   (c7_empty_absorption smallObj emptyNullObj (by decide)).2.1 (by decide),
   (c7_empty_absorption emptyArrObj emptyNullObj (by decide)).2.2 (by decide)⟩

/-- Claim C8: concatenating two non-empty collections whose common field
holds 1-D arrays of lengths m and n yields that field as the 1-D array of
length m + n listing the first operand values in order followed by the
second operand values in order. -/
theorem c8_one_dim_concat (s o : Retv) (k : String) (xs ys : List ℚ)
    (hs : isEmptyObj s = false) (ho : isEmptyObj o = false)
    (hsk : getField s k = some (NpValue.arr1 xs))
    (hok : getField o k = some (NpValue.arr1 ys)) :
    getField (addObj s o) k = some (NpValue.arr1 (xs ++ ys))
    ∧ (xs ++ ys).length = xs.length + ys.length := by
  have hobj : addObj s o = addEntries o s := by simp [addObj, hs, ho]
  have hmap : getField (addEntries o s) k
      = (getField s k).map fun sv => addField k sv ((getField o k).getD NpValue.null) :=
    getField_map (fun a b => addField a b ((getField o a).getD NpValue.null)) s k
  refine ⟨?_, List.length_append xs ys⟩
  rw [hobj, hmap, hsk, hok]
  rfl

/-- Witness for C8. -/
theorem c8_witness :
    getField (addObj addLeft addRight) ("latitude") = some (NpValue.arr1 ([1] ++ [3]))
    ∧ (([1] : List ℚ) ++ [3]).length = ([1] : List ℚ).length + ([3] : List ℚ).length :=
  c8_one_dim_concat addLeft addRight ("latitude") [1] [3]
    (by decide) (by decide) (by decide) (by decide)

/-- Claim C10: the explicit rank guard of DataObject.__add__ compares the
ndim of the first operand value with itself, so the guarded ValueError is
never raised and concatenation always returns a value (for every pair of
collections the checked variant succeeds with the unchecked result); when
the two sides of a field have differing ranks, the attempted concatenation
raises ValueError inside the try block and the handler silently replaces
the first operand value by the second operand value. -/
theorem c10_rank_guard :
    (∀ s o : Retv, addObjE s o = Except.ok (addObj s o))
    ∧ (∀ (k : String) (xs : List ℚ) (c : Nat) (yss : List (List ℚ)),
        addField k (NpValue.arr1 xs) (NpValue.arr2 c yss) = NpValue.arr2 c yss)
    ∧ (∀ (k : String) (c : Nat) (xss : List (List ℚ)) (ys : List ℚ),
        addField k (NpValue.arr2 c xss) (NpValue.arr1 ys) = NpValue.arr1 ys) := by
  refine ⟨?_, ?_, ?_⟩
  · intro s o
    cases h1 : isEmptyObj s with
    | true => simp [addObjE, addObj, h1]
    | false =>
      cases h2 : isEmptyObj o with
      | true => simp [addObjE, addObj, h1, h2]
      | false => simp [addObjE, addObj, h1, h2, addEntriesE_ok]
  · intro k xs c yss
    rfl
  · intro k c xss ys
    simp [addField, tryConcat, concat2]

/-- Claim C9: for every file that loads successfully, every top-level
dataset that is not the single-shot group, not in an excluded new-format
or metadata group and not in the skip-list appears in the resulting
collection under its canonical name (the lowercase dataset name,
substituted through the rename map when present). -/
theorem c9_eligible_datasets_loaded (f : H5File) (retv r : Retv) (d : String)
    (hr : (readCalipsoH5 (some f) retv).1 = Except.ok r)
    (hmem : d ∈ f.datasets.map Prod.fst)
    (hd1 : d ≠ "Single_Shot_Detection")
    (hd2 : d ∉ newFormatGroups)
    (hd3 : d ∉ scipTheseLargerVariablesUntilNeeded) :
    (getField r (canonicalName d)).isSome = true := by
  by_cases hss : "Single_Shot_Detection" ∈ f.datasets.map Prod.fst
  · cases hsd : f.ssData with
    | error e => simp [readCalipsoH5, hss, hsd] at hr
    | ok ss =>
      cases hl : loadDatasets (rearrangeSingleShot retv ss) f.datasets with
      | error e => simp [readCalipsoH5, hss, hsd, hl] at hr
      | ok r2 =>
        have h2 : r2 = r := by simpa [readCalipsoH5, hss, hsd, hl] using hr
        subst h2
        exact loadDatasets_mem f.datasets _ _ d hl hmem hd1 hd2 hd3
  · cases hl : loadDatasets retv f.datasets with
    | error e => simp [readCalipsoH5, hss, hl] at hr
    | ok r2 =>
      have h2 : r2 = r := by simpa [readCalipsoH5, hss, hl] using hr
      subst h2
      exact loadDatasets_mem f.datasets _ _ d hl hmem hd1 hd2 hd3

/-- Witness for C9: the okFile dataset Latitude appears as latitude. -/
theorem c9_witness :
    (getField [("latitude", NpValue.arr2 2 [[1, 2], [3, 4]])] (canonicalName ("Latitude"))).isSome
      = true :=
  c9_eligible_datasets_loaded okFile ([] : Retv)
    [("latitude", NpValue.arr2 2 [[1, 2], [3, 4]])] ("Latitude")
    (by rfl) (by decide) (by decide) (by decide) (by decide)

end Calipso
